import Mathlib

/-!
# Verification of the housing-ocr document pipeline

Shallow embedding of the core pipeline of the `housing-ocr` repository:

* `src/llm.py` — Japanese era-year normalization and the `LLMExtractor`
  model-failover loop (`extract_properties`);
* `src/models.py` — the `documents` table operations used by the pipeline
  (`update_ocr_status`, `update_llm_status`, `increment_retry`,
  `get_pending_documents`);
* `src/processor.py` — `DocumentProcessor.process_document` (the per-document
  two-stage state machine) and the dispatch step of `process_queue`.

Statuses are modelled as the literal strings the source uses.  External
OCR/LLM calls are modelled by oracles supplied in an environment record, and
each run returns the final document row together with a trace of the store
writes and the number of external calls it performed.
-/

namespace HousingOCR

/-- A Python/JSON value as it occurs in a parsed LLM payload.  Arrays are
abstracted to their length (the pipeline never inspects array elements in the
code under verification; only truthiness and the meaningful-field test touch
them, and both depend on no more than emptiness). -/
inductive PyVal where
  | none
  | str (s : String)
  | int (n : Int)
  | bool (b : Bool)
  | arr (len : Nat)
deriving DecidableEq, Repr

/-- Lookup in an insertion-ordered dict (`d[k]` / `k in d`). -/
def findVal (k : String) : List (String × α) → Option α
  | [] => Option.none
  | (k', v) :: rest => if k' = k then some v else findVal k rest

/-- Python dict assignment `d[k] = v`: replace in place if the key exists,
append otherwise. -/
def setKey (k : String) (v : α) : List (String × α) → List (String × α)
  | [] => [(k, v)]
  | (k', v') :: rest =>
    if k' = k then (k, v) :: rest else (k', v') :: setKey k v rest

/-- Python `d.pop(k, None)`: the removed value (if any) and the remaining
dict. -/
def popKey (k : String) : List (String × α) → Option α × List (String × α)
  | [] => (Option.none, [])
  | (k', v') :: rest =>
    if k' = k then (some v', rest)
    else
      let r := popKey k rest
      (r.1, (k', v') :: r.2)

/-- Python `str(v)` for the payload values the pipeline converts.  The repr of
an array is abstracted (it is never fed to the era converter in the verified
claims, and contains no era characters). -/
def pyStr : PyVal → String
  | .none => "None"
  | .str s => s
  | .int n => toString n
  | .bool b => if b then "True" else "False"
  | .arr _ => "[...]"

/-- Python `s.strip()` (kernel-computable; strips leading and trailing
whitespace — the pipeline only ever tests the result for emptiness). -/
def pyStrip (s : String) : String :=
  String.mk (((s.data.dropWhile Char.isWhitespace).reverse.dropWhile
    Char.isWhitespace).reverse)

/-- Python `s.startswith("_")` for a one-character needle: the first character
is an underscore. -/
def headUnderscore (s : String) : Bool :=
  match s.data with
  | [] => false
  | c :: _ => c = '_'

/-- Python truthiness of a payload value. -/
def pyTruthy : PyVal → Bool
  | .none => false
  | .str s => s ≠ ""
  | .int n => n ≠ 0
  | .bool b => b
  | .arr n => n ≠ 0

/-! ## `src/llm.py` — era-year normalization -/

/-- `ERA_START_YEARS` from `src/llm.py`: the documented start year of each
Japanese era. -/
def ERA_START_YEARS : List (String × Nat) :=
  [("明治", 1868), ("大正", 1912), ("昭和", 1926), ("平成", 1989), ("令和", 2019)]

/-- `ERA_PATTERNS` from `src/llm.py`: the `(regex, base_year)` pairs actually
used by the converter, in trial order.  Note the 明治 base year is written
`1867` in the source. -/
def ERA_PATTERNS : List (String × Nat) :=
  [("令和", 2019), ("平成", 1989), ("昭和", 1926), ("大正", 1912), ("明治", 1867)]

/-- Numeric value of a run of decimal digits (`int(match.group(1))`). -/
def digitsToNat (ds : List Char) : Nat :=
  ds.foldl (fun a c => a * 10 + (c.toNat - 48)) 0

/-- Match the pattern `<era>(\d+)年?` at the head of `cs`: the era characters
followed by a maximal nonempty run of digits (the optional `年` does not
affect the captured group). -/
def matchEraAt (era : List Char) (cs : List Char) : Option Nat :=
  if cs.take era.length = era then
    let ds := (cs.drop era.length).takeWhile Char.isDigit
    if ds.isEmpty then Option.none else some (digitsToNat ds)
  else Option.none

/-- `re.search`: leftmost occurrence of `<era>(\d+)` in the text. -/
def searchEraYear (era : List Char) : List Char → Option Nat
  | [] => Option.none
  | c :: cs =>
    match matchEraAt era (c :: cs) with
    | some n => some n
    | Option.none => searchEraYear era cs

/-- The pattern loop of `convert_japanese_era_to_western`: try the patterns in
`ERA_PATTERNS` order; on the first match return `base_year + era_year - 1`. -/
def tryEraPatterns : List (String × Nat) → List Char → Option Nat
  | [], _ => Option.none
  | (era, base) :: rest, cs =>
    match searchEraYear era.data cs with
    | some n => some (base + n - 1)
    | Option.none => tryEraPatterns rest cs

/-- `convert_japanese_era_to_western` from `src/llm.py`. -/
def convert_japanese_era_to_western (era_text : String) : String :=
  if era_text = "" then era_text
  else
    match tryEraPatterns ERA_PATTERNS era_text.data with
    | some y => toString y
    | Option.none => era_text

/-- `_convert_era_in_properties` from `src/llm.py`: rewrite a truthy
`build_year` entry through the era converter (after `str(...)`). -/
def _convert_era_in_properties (props : List (String × PyVal)) :
    List (String × PyVal) :=
  match findVal "build_year" props with
  | some v =>
    if pyTruthy v then
      setKey "build_year" (.str (convert_japanese_era_to_western (pyStr v))) props
    else props
  | Option.none => props

/-! ## `src/llm.py` — `LLMExtractor.extract_properties` -/

/-- `self.rate_limit_cooldown` (seconds) from `LLMExtractor.__init__`. -/
def rate_limit_cooldown : Nat := 60

/-- Outcome of one chat-completion request for one candidate model, as the
`except` clauses of `extract_properties` classify it. -/
inductive ModelResponse where
  /-- `httpx.HTTPStatusError` with status code 429. -/
  | rateLimited
  /-- `httpx.HTTPStatusError` with any other status code. -/
  | httpError (code : Nat)
  /-- `ValueError` from `response.json()` / `_extract_json` (unparsable body). -/
  | parseError
  /-- any other exception (transport error, missing fields, ...). -/
  | otherError
  /-- 2xx response whose body parsed to the given JSON object. -/
  | success (props : List (String × PyVal))
deriving DecidableEq, Repr

/-- How an `extract_properties` call ends. -/
inductive ExtractOutcome where
  /-- a qualifying field map was returned. -/
  | ok (props : List (String × PyVal))
  /-- `raise Exception("没有可用的模型...")`: empty candidate list. -/
  | errNoModels
  /-- `raise Exception("所有模型均失败...")`: every candidate exhausted. -/
  | errAllFailed
deriving DecidableEq, Repr

/-- Result of an `extract_properties` call: the outcome, the final
`model_429_times` cooldown map, and the models an HTTP request was actually
issued for, in order. -/
structure ExtractResult where
  outcome : ExtractOutcome
  cooldown : List (String × Nat)
  called : List String
deriving DecidableEq, Repr

/-- The meaningful-field test of `extract_properties`
(`v is not None and v != "" and not (isinstance(v, str) and
v.startswith("_"))`) — note it tests the **value** `v`, never the key. -/
def isMeaningfulVal : PyVal → Bool
  | .none => false
  | .str s => s ≠ "" && !headUnderscore s
  | .int _ => true
  | .bool _ => true
  | .arr _ => true

/-- `meaningful_count`: number of dict values passing the test. -/
def meaningfulCount (props : List (String × PyVal)) : Nat :=
  (props.filter fun p => isMeaningfulVal p.2).length

/-- The cooldown check at the top of the candidate loop:
`model in self.model_429_times and time.time() - last_429 <
self.rate_limit_cooldown`. -/
def inCooldown (cd : List (String × Nat)) (now : Nat) (m : String) : Bool :=
  match findVal m cd with
  | some t => now - t < rate_limit_cooldown
  | Option.none => false

/-- The candidate loop of `extract_properties` (`for model in self.models`).
`respond` is the oracle giving each model's response, `now` the wall-clock
time of the call, `cd` the current `model_429_times` map, and `called` the
request log so far. -/
def extractLoop (respond : String → ModelResponse) (now : Nat) :
    List String → List (String × Nat) → List String → ExtractResult
  | [], cd, called => ⟨.errAllFailed, cd, called⟩
  | m :: ms, cd, called =>
    if inCooldown cd now m then
      extractLoop respond now ms cd called
    else
      match respond m with
      | .success props =>
        let converted :=
          _convert_era_in_properties (setKey "_extracted_by_model" (.str m) props)
        if meaningfulCount converted < 3 then
          extractLoop respond now ms cd (called ++ [m])
        else
          ⟨.ok converted, cd, called ++ [m]⟩
      | .rateLimited => extractLoop respond now ms (setKey m now cd) (called ++ [m])
      | .httpError _ => extractLoop respond now ms cd (called ++ [m])
      | .parseError => extractLoop respond now ms cd (called ++ [m])
      | .otherError => extractLoop respond now ms cd (called ++ [m])

/-- `LLMExtractor.extract_properties`: fail fast on an empty candidate list,
otherwise run the candidate loop. -/
def extract_properties (models : List String) (respond : String → ModelResponse)
    (cd : List (String × Nat)) (now : Nat) : ExtractResult :=
  match models with
  | [] => ⟨.errNoModels, cd, []⟩
  | _ :: _ => extractLoop respond now models cd []

/-! ## `src/models.py` — the `documents` row and its operations -/

/-- One row of the `documents` table (the fields the pipeline reads/writes). -/
structure Doc where
  id : Nat
  upload_time : Nat
  ocr_status : String
  ocr_text : Option String
  llm_status : String
  properties : Option (List (String × PyVal))
  extracted_model : Option String
  retry_count : Nat
  favorite : Bool
deriving DecidableEq, Repr

/-- `Database.update_ocr_status`: sets `ocr_status`, and `ocr_text` only when
a text is passed. -/
def update_ocr_status (d : Doc) (status : String) (text : Option String) : Doc :=
  match text with
  | some t => { d with ocr_status := status, ocr_text := some t }
  | Option.none => { d with ocr_status := status }

/-- `Database.update_llm_status`: sets `llm_status` and `extracted_model`
always (the SQL writes `extracted_model` in both branches, so omitting the
argument nulls the column), and `properties` only when a map is passed. -/
def update_llm_status (d : Doc) (status : String)
    (props : Option (List (String × PyVal))) (model : Option String) : Doc :=
  match props with
  | some p =>
    { d with llm_status := status, properties := some p, extracted_model := model }
  | Option.none => { d with llm_status := status, extracted_model := model }

/-- `Database.increment_retry`. -/
def increment_retry (d : Doc) : Doc := { d with retry_count := d.retry_count + 1 }

/-- The `WHERE` clause of `get_pending_documents` (the literal `5` is the
retry bound hardcoded in the SQL). -/
def eligible (d : Doc) : Bool :=
  d.ocr_status == "pending" ||
  (d.ocr_status == "done" && d.llm_status == "pending") ||
  (d.ocr_status == "processing" && decide (d.retry_count < 5)) ||
  (d.llm_status == "processing" && decide (d.retry_count < 5))

/-- The `ORDER BY favorite DESC, upload_time ASC` comparison: favorited rows
first, then older uploads first. -/
def docBefore (a b : Doc) : Prop :=
  (if a.favorite then 0 else 1) < (if b.favorite then 0 else 1) ∨
  ((if a.favorite then 0 else 1) = (if b.favorite then 0 else 1) ∧
    a.upload_time ≤ b.upload_time)

instance : DecidableRel docBefore := fun a b => by
  unfold docBefore
  infer_instance

instance : IsTotal Doc docBefore :=
  ⟨by
    intro a b
    unfold docBefore
    omega⟩

instance : IsTrans Doc docBefore :=
  ⟨by
    intro a b c
    unfold docBefore
    omega⟩

/-- `Database.get_pending_documents`:
`SELECT * FROM documents WHERE <eligible> ORDER BY favorite DESC,
upload_time ASC LIMIT 10`, over a table given as a list of rows in rowid
order (a stable sort models the deterministic tie-breaking of the scan). -/
def get_pending_documents (table : List Doc) : List Doc :=
  (List.insertionSort docBefore (table.filter eligible)).take 10

/-! ## `src/processor.py` — `DocumentProcessor.process_document`

The run is modelled sequentially: the store holds the single row keyed by the
processed id, external calls are answered by oracles in `Env`, and the result
records the final row, the final extractor cooldown map, every store write in
order, and how many OCR / LLM calls were issued. -/

/-- One store write performed during a run. -/
inductive DbWrite where
  | ocrW (status : String) (text : Option String)
  | llmW (status : String) (props : Option (List (String × PyVal)))
      (model : Option String)
  | retryW
deriving DecidableEq, Repr

/-- External world of one `process_document` run: the OCR call's outcome and
the `LLMExtractor` inputs (candidate list, per-model responses, current
cooldown map, wall-clock time). -/
structure Env where
  ocrResult : Except Unit String
  models : List String
  respond : String → ModelResponse
  cooldown0 : List (String × Nat)
  now : Nat

/-- Result of one `process_document` run. -/
structure RunResult where
  doc : Doc
  cooldown : List (String × Nat)
  writes : List DbWrite
  ocrCalls : Nat
  llmCalls : Nat

/-- The outer `except Exception` handler of `process_document`
(lines 117–132): increment `retry_count`, re-read the row, and reset
whichever stage is still `processing` to `pending`. -/
def handleException (cd : List (String × Nat)) (writes : List DbWrite)
    (oc lc : Nat) (store : Doc) : RunResult :=
  let store1 := increment_retry store
  let writes1 := writes ++ [DbWrite.retryW]
  if store1.ocr_status = "processing" then
    ⟨update_ocr_status store1 "pending" Option.none, cd,
      writes1 ++ [DbWrite.ocrW "pending" Option.none], oc, lc⟩
  else if store1.llm_status = "processing" then
    ⟨update_llm_status store1 "pending" Option.none Option.none, cd,
      writes1 ++ [DbWrite.llmW "pending" Option.none Option.none], oc, lc⟩
  else ⟨store1, cd, writes1, oc, lc⟩

/-- The LLM stage of `process_document` (lines 86–115).  `docOcr`/`docLlm`
are the statuses of the **local snapshot** `doc` (read at entry and patched
by the stuck-state resets, but not by the OCR stage), `store` the current
row. -/
def llmStage (env : Env) (docOcr docLlm : String) (store : Doc)
    (writes : List DbWrite) (oc : Nat) : RunResult :=
  if docOcr = "done" ∧ (docLlm = "pending" ∨ docLlm = "failed") then
    -- current_doc = self.db.get_document(doc_id); ocr_text = ... or ""
    let text := store.ocr_text.getD ""
    if pyStrip text = "" then
      -- self-healing guard: reset both statuses to pending and stop
      ⟨update_llm_status (update_ocr_status store "pending" Option.none)
          "pending" Option.none Option.none,
        env.cooldown0,
        writes ++ [DbWrite.ocrW "pending" Option.none,
          DbWrite.llmW "pending" Option.none Option.none],
        oc, 0⟩
    else
      let store5 := update_llm_status store "processing" Option.none Option.none
      let writes5 := writes ++ [DbWrite.llmW "processing" Option.none Option.none]
      let res := extract_properties env.models env.respond env.cooldown0 env.now
      match res.outcome with
      | .ok props =>
        -- extracted_model = properties.pop("_extracted_by_model", None)
        let pr := popKey "_extracted_by_model" props
        ⟨update_llm_status store5 "done" (some pr.2) (pr.1.map pyStr),
          res.cooldown,
          writes5 ++ [DbWrite.llmW "done" (some pr.2) (pr.1.map pyStr)],
          oc, 1⟩
      | .errNoModels => handleException res.cooldown writes5 oc 1 store5
      | .errAllFailed => handleException res.cooldown writes5 oc 1 store5
  else ⟨store, env.cooldown0, writes, oc, 0⟩

/-- The OCR stage of `process_document` (lines 56–84) followed by the LLM
stage. -/
def ocrStage (env : Env) (docOcr docLlm : String) (store : Doc)
    (writes : List DbWrite) : RunResult :=
  if docOcr = "pending" ∨ docOcr = "processing" then
    let store3 :=
      if docOcr = "pending" then update_ocr_status store "processing" Option.none
      else store
    let writes3 :=
      if docOcr = "pending" then writes ++ [DbWrite.ocrW "processing" Option.none]
      else writes
    match env.ocrResult with
    | .error _ =>
      -- inner handler sets pending, re-raises into the outer handler
      handleException env.cooldown0
        (writes3 ++ [DbWrite.ocrW "pending" Option.none]) 1 0
        (update_ocr_status store3 "pending" Option.none)
    | .ok t =>
      if pyStrip t = "" then
        llmStage env docOcr docLlm (update_ocr_status store3 "pending" Option.none)
          (writes3 ++ [DbWrite.ocrW "pending" Option.none]) 1
      else
        llmStage env docOcr docLlm (update_ocr_status store3 "done" (some t))
          (writes3 ++ [DbWrite.ocrW "done" (some t)]) 1
  else llmStage env docOcr docLlm store writes 0

/-- `DocumentProcessor.process_document`: read the row, reset stuck
`processing` states (in the store and in the local snapshot), then run the
OCR and LLM stages. -/
def process_document (env : Env) (store0 : Doc) : RunResult :=
  let docOcr := if store0.ocr_status = "processing" then "pending" else store0.ocr_status
  let docLlm := if store0.llm_status = "processing" then "pending" else store0.llm_status
  let store1 :=
    if store0.ocr_status = "processing"
    then update_ocr_status store0 "pending" Option.none else store0
  let writes1 : List DbWrite :=
    if store0.ocr_status = "processing"
    then [DbWrite.ocrW "pending" Option.none] else []
  let store2 :=
    if store0.llm_status = "processing"
    then update_llm_status store1 "pending" Option.none Option.none else store1
  let writes2 :=
    if store0.llm_status = "processing"
    then writes1 ++ [DbWrite.llmW "pending" Option.none Option.none] else writes1
  ocrStage env docOcr docLlm store2 writes2

set_option linter.unusedVariables false in
/-- The dispatch step of one `process_queue` poll cycle: the loop
`for doc in pending_docs: asyncio.create_task(...)` creates one task per
returned row.  The `inflight` argument (ids of units of work already in
flight) is deliberately present but unused: the source contains no membership
test against any set of dispatched document ids. -/
def process_queue_cycle (inflight : List Nat) (pending : List Doc) : List Nat :=
  pending.map fun d => d.id

/-! ## Spec-side predicates and concrete sample inputs -/

/-- Invariant I1 of the spec: `llm_status == done` implies `ocr_status == done`
and a non-empty `ocr_text`. -/
def I1 (d : Doc) : Prop :=
  d.llm_status = "done" → d.ocr_status = "done" ∧ ∃ t, d.ocr_text = some t ∧ t ≠ ""

/-- The spec's `RETRY_LIMIT` (the literal `5` of the eligibility SQL). -/
def RETRY_LIMIT : Nat := 5

/-- The eligibility predicate exactly as the spec words it (§4.2), for
comparison against the SQL `WHERE` clause `eligible`. -/
def specEligible (d : Doc) : Prop :=
  d.ocr_status = "pending" ∨
  (d.ocr_status = "done" ∧ d.llm_status = "pending") ∨
  (d.ocr_status = "processing" ∧ d.retry_count < RETRY_LIMIT) ∨
  (d.llm_status = "processing" ∧ d.retry_count < RETRY_LIMIT)

instance (d : Doc) : Decidable (specEligible d) := by
  unfold specEligible
  infer_instance

/-- A rich payload with 5 populated fields (the failover scenario). -/
def payloadRich : List (String × PyVal) :=
  [("property_type", .str "マンション"), ("property_name", .str "コーポ"),
   ("price", .int 5800), ("room_layout", .str "2LDK"), ("exclusive_area", .int 65)]

/-- A sparse payload: syntactically valid, but only 2 populated fields. -/
def payloadSparse : List (String × PyVal) :=
  [("property_name", .str "X"), ("price", .int 5000), ("address", PyVal.none)]

/-- Failover scenario oracle: candidate `modelA` is rate-limited (HTTP 429),
`modelB` returns an unparsable body, `modelC` returns `payloadRich`. -/
def respondFailover : String → ModelResponse := fun m =>
  if m = "modelA" then .rateLimited
  else if m = "modelB" then .parseError
  else .success payloadRich

/-- Oracle on which every candidate returns an unparsable body. -/
def respondParseError : String → ModelResponse := fun _ => .parseError

/-- Oracle on which every candidate returns the sparse payload. -/
def respondSparse : String → ModelResponse := fun _ => .success payloadSparse

/-- A document ready for the LLM stage: OCR done with non-empty text. -/
def docLlmReady : Doc :=
  ⟨1, 100, "done", some "scanned text", "pending", Option.none, Option.none, 0, false⟩

/-- A fully completed document (`done`/`done`). -/
def docDoneDone : Doc :=
  ⟨2, 50, "done", some "t", "done",
    some [("price", PyVal.int 5800)], some "modelC", 1, true⟩

/-- A freshly uploaded document. -/
def docFresh : Doc :=
  ⟨3, 10, "pending", Option.none, "pending", Option.none, Option.none, 2, false⟩

/-- Environment whose single candidate always fails to parse (so
`extract_properties` exhausts all candidates). -/
def envAllFail : Env := ⟨.ok "x", ["modelA"], respondParseError, [], 1000⟩

/-- Environment realizing the failover scenario. -/
def envFailover : Env :=
  ⟨.ok "x", ["modelA", "modelB", "modelC"], respondFailover, [], 1000⟩

/-- Environment whose OCR call returns whitespace-only text. -/
def envEmptyOcr : Env := ⟨.ok "  ", ["modelA"], respondParseError, [], 0⟩

/-- Oracle on which every candidate returns an HTTP 500. -/
def respondHttp : String → ModelResponse := fun _ => .httpError 500

/-- A document with `ocr_status = done` but whitespace-only stored text (the
data inconsistency the self-healing guard targets). -/
def docEmptyText : Doc :=
  ⟨4, 20, "done", some "  ", "pending", Option.none, Option.none, 0, false⟩

/-! ## Helper lemmas -/

/-- A document whose `llm_status` is not `done` satisfies I1 vacuously. -/
theorem I1_of_llm_ne_done (d : Doc) (h : d.llm_status ≠ "done") : I1 d :=
  fun hd => absurd hd h

/-- The exception handler never moves `llm_status` to `done`. -/
theorem handleException_llm_ne_done (cd : List (String × Nat)) (w : List DbWrite)
    (oc lc : Nat) (store : Doc) (h : store.llm_status ≠ "done") :
    (handleException cd w oc lc store).doc.llm_status ≠ "done" := by
  simp only [handleException]
  split_ifs <;> simp_all [increment_retry, update_ocr_status, update_llm_status]

/-- The exception handler adds no `llm_status = done` write. -/
theorem handleException_no_done_write (cd : List (String × Nat)) (w : List DbWrite)
    (oc lc : Nat) (store : Doc)
    (hw : ∀ p m, DbWrite.llmW "done" p m ∉ w) :
    ∀ p m, DbWrite.llmW "done" p m ∉ (handleException cd w oc lc store).writes := by
  simp only [handleException]
  split_ifs <;> simp_all

/-- The LLM stage preserves invariant I1, provided the local snapshot status
`docOcr = done` faithfully reflects the store. -/
theorem llmStage_I1 (env : Env) (docOcr docLlm : String) (store : Doc)
    (writes : List DbWrite) (oc : Nat)
    (hsync : docOcr = "done" → store.ocr_status = "done")
    (hI : I1 store) :
    I1 (llmStage env docOcr docLlm store writes oc).doc := by
  simp only [llmStage]
  split_ifs with hg het
  · exact I1_of_llm_ne_done _ (by simp [update_llm_status, update_ocr_status])
  · cases hout : (extract_properties env.models env.respond env.cooldown0 env.now).outcome with
    | ok props =>
      simp only [hout]
      intro _
      have hoc := hsync hg.1
      have htext : ∃ t, store.ocr_text = some t ∧ t ≠ "" := by
        cases hot : store.ocr_text with
        | none => simp [hot, pyStrip] at het
        | some t =>
          refine ⟨t, rfl, ?_⟩
          intro hteq
          subst hteq
          simp [hot] at het
          exact het rfl
      refine ⟨by simp [update_llm_status, hoc], ?_⟩
      obtain ⟨t, ht1, ht2⟩ := htext
      exact ⟨t, by simp [update_llm_status, ht1], ht2⟩
    | errNoModels =>
      simp only [hout]
      refine I1_of_llm_ne_done _ (handleException_llm_ne_done _ _ _ _ _ ?_)
      simp [update_llm_status]
    | errAllFailed =>
      simp only [hout]
      refine I1_of_llm_ne_done _ (handleException_llm_ne_done _ _ _ _ _ ?_)
      simp [update_llm_status]
  · exact hI

/-- The OCR stage (followed by the LLM stage) preserves invariant I1. -/
theorem ocrStage_I1 (env : Env) (docOcr docLlm : String) (store : Doc)
    (writes : List DbWrite)
    (hdo : docOcr ≠ "processing")
    (hsync : docOcr = "done" → store.ocr_status = "done")
    (hllm : docOcr = "pending" → store.llm_status ≠ "done")
    (hI : I1 store) :
    I1 (ocrStage env docOcr docLlm store writes).doc := by
  simp only [ocrStage]
  split_ifs with hg hpd
  · have hnd := hllm hpd
    cases hocr : env.ocrResult with
    | error e =>
      exact I1_of_llm_ne_done _ (handleException_llm_ne_done _ _ _ _ _
        (by simp [update_ocr_status, hnd]))
    | ok t =>
      dsimp only
      split_ifs with ht
      · apply llmStage_I1
        · intro hd
          rw [hpd] at hd
          exact absurd hd (by decide)
        · exact I1_of_llm_ne_done _ (by simp [update_ocr_status, hnd])
      · apply llmStage_I1
        · intro hd
          rw [hpd] at hd
          exact absurd hd (by decide)
        · exact I1_of_llm_ne_done _ (by simp [update_ocr_status, hnd])
  · have hproc : docOcr = "processing" := by
      rcases hg with hx | hx
      · exact absurd hx hpd
      · exact hx
    exact absurd hproc hdo
  · exact llmStage_I1 env docOcr docLlm store writes 0 hsync hI

/-- `process_document` preserves invariant I1. -/
theorem process_document_I1 (env : Env) (s : Doc) (h : I1 s) :
    I1 (process_document env s).doc := by
  by_cases hop : s.ocr_status = "processing" <;>
    by_cases hlp : s.llm_status = "processing"
  · simp [process_document, hop, hlp]
    apply ocrStage_I1
    · decide
    · intro hd
      exact absurd hd (by decide)
    · intro _
      simp [update_llm_status, update_ocr_status]
    · exact I1_of_llm_ne_done _ (by simp [update_llm_status, update_ocr_status])
  · simp [process_document, hop, hlp]
    apply ocrStage_I1
    · decide
    · intro hd
      exact absurd hd (by decide)
    · intro _
      simp only [update_ocr_status]
      intro hnd
      exact absurd (h hnd).1 (by simp [hop])
    · apply I1_of_llm_ne_done
      simp only [update_ocr_status]
      intro hnd
      exact absurd (h hnd).1 (by simp [hop])
  · simp [process_document, hop, hlp]
    apply ocrStage_I1
    · exact hop
    · intro hd
      simp [update_llm_status, hd]
    · intro _
      simp [update_llm_status]
    · exact I1_of_llm_ne_done _ (by simp [update_llm_status])
  · simp [process_document, hop, hlp]
    apply ocrStage_I1
    · exact hop
    · intro hd
      exact hd
    · intro hpd hnd
      exact absurd (h hnd).1 (by simp [hpd])
    · exact h

/-- If the LLM stage records an `llm_status = done` write, its final state has
`ocr_status = done` and non-empty `ocr_text`. -/
theorem llmStage_done_write (env : Env) (docOcr docLlm : String) (store : Doc)
    (writes : List DbWrite) (oc : Nat)
    (hw : ∀ p m, DbWrite.llmW "done" p m ∉ writes)
    (hsync : docOcr = "done" → store.ocr_status = "done") :
    ∀ p m, DbWrite.llmW "done" p m ∈ (llmStage env docOcr docLlm store writes oc).writes →
      (llmStage env docOcr docLlm store writes oc).doc.ocr_status = "done" ∧
      ∃ t, (llmStage env docOcr docLlm store writes oc).doc.ocr_text = some t ∧ t ≠ "" := by
  simp only [llmStage]
  split_ifs with hg het
  · intro p m hm
    simp only [List.mem_append, List.mem_cons, List.mem_singleton] at hm
    rcases hm with hm | hm | hm
    · exact absurd hm (hw p m)
    · cases hm
    · simp at hm
  · cases hout : (extract_properties env.models env.respond env.cooldown0 env.now).outcome with
    | ok props =>
      simp only [hout]
      intro p m _
      have hoc := hsync hg.1
      have htext : ∃ t, store.ocr_text = some t ∧ t ≠ "" := by
        cases hot : store.ocr_text with
        | none => simp [hot, pyStrip] at het
        | some t =>
          refine ⟨t, rfl, ?_⟩
          intro hteq
          subst hteq
          simp [hot] at het
          exact het rfl
      refine ⟨by simp [update_llm_status, hoc], ?_⟩
      obtain ⟨t, ht1, ht2⟩ := htext
      exact ⟨t, by simp [update_llm_status, ht1], ht2⟩
    | errNoModels =>
      simp only [hout]
      have hw5 : ∀ p m, DbWrite.llmW "done" p m ∉
          writes ++ [DbWrite.llmW "processing" Option.none Option.none] := by
        intro p m
        simp only [List.mem_append, List.mem_singleton]
        rintro (hm | hm)
        · exact hw p m hm
        · simp at hm
      intro p m hm
      exact absurd hm (handleException_no_done_write _ _ _ _ _ hw5 p m)
    | errAllFailed =>
      simp only [hout]
      have hw5 : ∀ p m, DbWrite.llmW "done" p m ∉
          writes ++ [DbWrite.llmW "processing" Option.none Option.none] := by
        intro p m
        simp only [List.mem_append, List.mem_singleton]
        rintro (hm | hm)
        · exact hw p m hm
        · simp at hm
      intro p m hm
      exact absurd hm (handleException_no_done_write _ _ _ _ _ hw5 p m)
  · intro p m hm
    exact absurd hm (hw p m)

/-- If the OCR+LLM stages record an `llm_status = done` write, the final state
has `ocr_status = done` and non-empty `ocr_text`. -/
theorem ocrStage_done_write (env : Env) (docOcr docLlm : String) (store : Doc)
    (writes : List DbWrite)
    (hdo : docOcr ≠ "processing")
    (hw : ∀ p m, DbWrite.llmW "done" p m ∉ writes)
    (hsync : docOcr = "done" → store.ocr_status = "done") :
    ∀ p m, DbWrite.llmW "done" p m ∈ (ocrStage env docOcr docLlm store writes).writes →
      (ocrStage env docOcr docLlm store writes).doc.ocr_status = "done" ∧
      ∃ t, (ocrStage env docOcr docLlm store writes).doc.ocr_text = some t ∧ t ≠ "" := by
  simp only [ocrStage]
  split_ifs with hg hpd
  · cases hocr : env.ocrResult with
    | error e =>
      have hw4 : ∀ p m, DbWrite.llmW "done" p m ∉
          writes ++ [DbWrite.ocrW "processing" Option.none] ++
            [DbWrite.ocrW "pending" Option.none] := by
        intro p m
        simp only [List.mem_append, List.mem_singleton]
        rintro ((hm | hm) | hm)
        · exact hw p m hm
        · simp at hm
        · simp at hm
      intro p m hm
      exact absurd hm (handleException_no_done_write _ _ _ _ _ hw4 p m)
    | ok t =>
      dsimp only
      split_ifs with ht
      · apply llmStage_done_write
        · intro p m
          simp only [List.mem_append, List.mem_singleton]
          rintro ((hm | hm) | hm)
          · exact hw p m hm
          · simp at hm
          · simp at hm
        · intro hd
          rw [hpd] at hd
          exact absurd hd (by decide)
      · apply llmStage_done_write
        · intro p m
          simp only [List.mem_append, List.mem_singleton]
          rintro ((hm | hm) | hm)
          · exact hw p m hm
          · simp at hm
          · simp at hm
        · intro hd
          rw [hpd] at hd
          exact absurd hd (by decide)
  · have hproc : docOcr = "processing" := by
      rcases hg with hx | hx
      · exact absurd hx hpd
      · exact hx
    exact absurd hproc hdo
  · exact llmStage_done_write env docOcr docLlm store writes 0 hw hsync

/-- A `process_document` run records an `llm_status = done` write only when
its final state has `ocr_status = done` and non-empty `ocr_text`. -/
theorem process_document_done_write (env : Env) (s : Doc) :
    ∀ p m, DbWrite.llmW "done" p m ∈ (process_document env s).writes →
      (process_document env s).doc.ocr_status = "done" ∧
      ∃ t, (process_document env s).doc.ocr_text = some t ∧ t ≠ "" := by
  by_cases hop : s.ocr_status = "processing" <;>
    by_cases hlp : s.llm_status = "processing"
  · simp [process_document, hop, hlp]
    apply ocrStage_done_write
    · decide
    · intro p m
      simp
    · intro hd
      exact absurd hd (by decide)
  · simp [process_document, hop, hlp]
    apply ocrStage_done_write
    · decide
    · intro p m
      simp
    · intro hd
      exact absurd hd (by decide)
  · simp [process_document, hop, hlp]
    apply ocrStage_done_write
    · exact hop
    · intro p m
      simp
    · intro hd
      simp [update_llm_status, hd]
  · simp [process_document, hop, hlp]
    apply ocrStage_done_write
    · exact hop
    · intro p m
      simp
    · intro hd
      exact hd

/-- The self-healing guard: `ocr_status = done` with empty stored text resets
both statuses to `pending` and issues no LLM call. -/
theorem process_document_selfheal (env : Env) (s : Doc)
    (h1 : s.ocr_status = "done")
    (h2 : s.llm_status = "pending" ∨ s.llm_status = "failed" ∨ s.llm_status = "processing")
    (h3 : pyStrip (s.ocr_text.getD "") = "") :
    (process_document env s).doc.ocr_status = "pending" ∧
    (process_document env s).doc.llm_status = "pending" ∧
    (process_document env s).llmCalls = 0 := by
  rcases h2 with h2 | h2 | h2 <;>
    simp [process_document, ocrStage, llmStage, update_ocr_status, update_llm_status,
      h1, h2, h3]

/-! ## Claim theorems -/

/-- C1 (counterexample): the claim says `process_queue` tracks the set of
currently-dispatched document ids and skips ids already in that set.  It does
not: with document id 1 already in flight, a poll cycle whose eligibility
query returns that document dispatches id 1 again — the dispatch loop contains
no membership test. -/
theorem C1_counterexample :
    process_queue_cycle [docLlmReady.id] [docLlmReady] = [docLlmReady.id] ∧
    docLlmReady.id ∈ [docLlmReady.id] := by
  decide

/-- C1 (amended): within a single poll cycle, `process_queue` dispatches
exactly one unit of work per row returned by `get_pending_documents` — with no
id-based skipping — and since the query returns each document id at most once,
no id is dispatched twice in the same cycle. -/
theorem C1_theorem (inflight : List Nat) (table : List Doc)
    (h : (table.map Doc.id).Nodup) :
    process_queue_cycle inflight (get_pending_documents table) =
      (get_pending_documents table).map Doc.id ∧
    (process_queue_cycle inflight (get_pending_documents table)).Nodup := by
  refine ⟨rfl, ?_⟩
  have h1 : (table.filter eligible).Sublist table := List.filter_sublist _
  have h2 : ((table.filter eligible).map Doc.id).Nodup := (h1.map Doc.id).nodup h
  have h3 : List.Perm (List.insertionSort docBefore (table.filter eligible))
      (table.filter eligible) := List.perm_insertionSort _ _
  have h4 : ((List.insertionSort docBefore (table.filter eligible)).map Doc.id).Nodup :=
    ((h3.map Doc.id).nodup_iff).mpr h2
  have h5 := ((List.take_sublist 10 _).map Doc.id).nodup h4
  simpa [process_queue_cycle, get_pending_documents] using h5

/-- C1 (witness): the amended claim at a concrete one-row table with an
unrelated id in flight. -/
theorem C1_witness :
    process_queue_cycle [5] (get_pending_documents [docLlmReady]) =
      (get_pending_documents [docLlmReady]).map Doc.id ∧
    (process_queue_cycle [5] (get_pending_documents [docLlmReady])).Nodup :=
  C1_theorem [5] [docLlmReady] (by decide)

/-- C2 (counterexample): the claim says an all-candidates-exhausted extraction
failure persists `llm_status = failed`.  On a concrete run whose only
candidate fails to parse, `extract_properties` raises the all-models-failed
error, and the run ends with `llm_status = pending` (after an extra retry),
never `failed`. -/
theorem C2_counterexample :
    (extract_properties envAllFail.models envAllFail.respond envAllFail.cooldown0
      envAllFail.now).outcome = ExtractOutcome.errAllFailed ∧
    (process_document envAllFail docLlmReady).doc.llm_status = "pending" ∧
    (process_document envAllFail docLlmReady).doc.llm_status ≠ "failed" ∧
    (process_document envAllFail docLlmReady).doc.retry_count =
      docLlmReady.retry_count + 1 := by
  refine ⟨by decide, by decide, by decide, by decide⟩

/-- C2 (amended): when `extract_properties` exhausts all candidate models, the
run increments `retry_count` and resets `llm_status` to `pending` (clearing
`extracted_model`); `llm_status = failed` is not written and no error message
is persisted. -/
theorem C2_theorem (env : Env) (s : Doc)
    (h1 : s.ocr_status = "done")
    (h2 : s.llm_status = "pending" ∨ s.llm_status = "failed")
    (h3 : pyStrip (s.ocr_text.getD "") ≠ "")
    (h4 : (extract_properties env.models env.respond env.cooldown0 env.now).outcome =
      ExtractOutcome.errAllFailed) :
    (process_document env s).doc.llm_status = "pending" ∧
    (process_document env s).doc.retry_count = s.retry_count + 1 ∧
    (process_document env s).doc.llm_status ≠ "failed" := by
  rcases h2 with h2 | h2 <;>
    simp [process_document, ocrStage, llmStage, handleException, increment_retry,
      update_ocr_status, update_llm_status, h1, h2, h3, h4]

/-- C2 (witness): the amended claim at a concrete document and environment. -/
theorem C2_witness :
    (process_document envAllFail docLlmReady).doc.llm_status = "pending" ∧
    (process_document envAllFail docLlmReady).doc.retry_count =
      docLlmReady.retry_count + 1 ∧
    (process_document envAllFail docLlmReady).doc.llm_status ≠ "failed" :=
  C2_theorem envAllFail docLlmReady rfl (Or.inl rfl) (by decide) (by decide)

/-- C3: the meaningful-field filter of `extract_properties` tests values, not
keys, so the internal `_extracted_by_model` tag's value inflates the count: a
payload with only 2 populated extracted fields is accepted and returned from
the first candidate (the loop does not advance to the second), even though
fewer than 3 populated, meaningful extracted fields are present. -/
theorem C3_theorem :
    (extract_properties ["modelA", "modelB"] respondSparse [] 0).outcome =
      .ok (payloadSparse ++ [("_extracted_by_model", PyVal.str "modelA")]) ∧
    (extract_properties ["modelA", "modelB"] respondSparse [] 0).called = ["modelA"] ∧
    (payloadSparse.filter fun p => isMeaningfulVal p.2).length = 2 ∧
    meaningfulCount
      (_convert_era_in_properties
        (setKey "_extracted_by_model" (PyVal.str "modelA") payloadSparse)) = 3 := by
  refine ⟨by decide, by decide, by decide, by decide⟩

/-- C4: invariant I1 — `process_document` preserves I1 on every run; it
records an `llm_status = done` write only when the resulting store state has
`ocr_status = done` with non-empty `ocr_text`; and when `ocr_text` is empty
despite `ocr_status = done`, it resets both statuses to `pending` and issues
no LLM call. -/
theorem C4_theorem (env : Env) (s : Doc) :
    (I1 s → I1 (process_document env s).doc) ∧
    (∀ p m, DbWrite.llmW "done" p m ∈ (process_document env s).writes →
      (process_document env s).doc.ocr_status = "done" ∧
      ∃ t, (process_document env s).doc.ocr_text = some t ∧ t ≠ "") ∧
    (s.ocr_status = "done" →
      s.llm_status = "pending" ∨ s.llm_status = "failed" ∨ s.llm_status = "processing" →
      pyStrip (s.ocr_text.getD "") = "" →
      (process_document env s).doc.ocr_status = "pending" ∧
      (process_document env s).doc.llm_status = "pending" ∧
      (process_document env s).llmCalls = 0) :=
  ⟨fun h => process_document_I1 env s h,
    process_document_done_write env s,
    fun h1 h2 h3 => process_document_selfheal env s h1 h2 h3⟩

/-- C4 (witness): the self-healing conjunct at a concrete document whose
stored OCR text is whitespace despite `ocr_status = done`. -/
theorem C4_witness :
    (process_document envAllFail docEmptyText).doc.ocr_status = "pending" ∧
    (process_document envAllFail docEmptyText).doc.llm_status = "pending" ∧
    (process_document envAllFail docEmptyText).llmCalls = 0 :=
  (C4_theorem envAllFail docEmptyText).2.2 rfl (Or.inl rfl) (by decide)

/-- C5: `get_pending_documents` is the spec's eligibility query — its `WHERE`
clause coincides pointwise with the spec predicate (with `RETRY_LIMIT = 5`),
its order puts favorited documents first and then older uploads first, it is
sorted accordingly, it returns at most 10 rows, every returned row is an
eligible table row, and when at most 10 rows are eligible it returns all of
them. -/
theorem C5_theorem :
    (∀ d : Doc, eligible d = true ↔ specEligible d) ∧
    (∀ a b : Doc, docBefore a b ↔
      ((a.favorite = true ∧ b.favorite = false) ∨
        (a.favorite = b.favorite ∧ a.upload_time ≤ b.upload_time))) ∧
    (∀ table : List Doc, (get_pending_documents table).Sorted docBefore) ∧
    (∀ table : List Doc, (get_pending_documents table).length ≤ 10) ∧
    (∀ table : List Doc, ∀ d ∈ get_pending_documents table, d ∈ table ∧ specEligible d) ∧
    (∀ table : List Doc, (table.filter eligible).length ≤ 10 →
      ∀ d ∈ table, specEligible d → d ∈ get_pending_documents table) := by
  have heq : ∀ d : Doc, eligible d = true ↔ specEligible d := by
    intro d
    simp [eligible, specEligible, RETRY_LIMIT]
    tauto
  refine ⟨heq, ?_, ?_, ?_, ?_, ?_⟩
  · intro a b
    cases ha : a.favorite <;> cases hb : b.favorite <;>
      simp [docBefore, ha, hb]
  · intro table
    unfold get_pending_documents
    exact (List.sorted_insertionSort docBefore (table.filter eligible)).take
  · intro table
    simp [get_pending_documents]
  · intro table d hd
    have h1 : d ∈ List.insertionSort docBefore (table.filter eligible) :=
      List.mem_of_mem_take hd
    have h2 : d ∈ table.filter eligible :=
      (List.perm_insertionSort docBefore (table.filter eligible)).mem_iff.mp h1
    exact ⟨List.mem_of_mem_filter h2, (heq d).mp (List.of_mem_filter h2)⟩
  · intro table hlen d hd hspec
    have hperm := List.perm_insertionSort docBefore (table.filter eligible)
    have hlen2 : (List.insertionSort docBefore (table.filter eligible)).length ≤ 10 := by
      rw [hperm.length_eq]
      exact hlen
    have htake : (List.insertionSort docBefore (table.filter eligible)).take 10 =
        List.insertionSort docBefore (table.filter eligible) :=
      List.take_of_length_le hlen2
    unfold get_pending_documents
    rw [htake, hperm.mem_iff]
    exact List.mem_filter.mpr ⟨hd, (heq d).mpr hspec⟩

/-- C5 (witness): the all-returned conjunct at a concrete one-row table. -/
theorem C5_witness : docLlmReady ∈ get_pending_documents [docLlmReady] :=
  C5_theorem.2.2.2.2.2 [docLlmReady] (by decide) docLlmReady
    (List.mem_singleton.mpr rfl) (by decide)

/-- C6: the failover loop of `extract_properties` tries candidates in list
order: a candidate within its 60-second cooldown window is skipped without a
request; a rate-limited (429) candidate has the current time recorded as its
cooldown start and the loop advances; other HTTP errors and unparsable bodies
advance; a qualifying success returns the field map tagged with the producing
model.  In the concrete failover scenario (A → 429, B → parse error, C → rich
payload) the result is C's tagged map with A recorded in cooldown. -/
theorem C6_theorem :
    (∀ respond now m ms cd called, inCooldown cd now m = true →
      extractLoop respond now (m :: ms) cd called =
        extractLoop respond now ms cd called) ∧
    (∀ respond now m ms cd called, inCooldown cd now m = false →
      respond m = ModelResponse.rateLimited →
      extractLoop respond now (m :: ms) cd called =
        extractLoop respond now ms (setKey m now cd) (called ++ [m])) ∧
    (∀ respond now m ms cd called code, inCooldown cd now m = false →
      respond m = ModelResponse.httpError code →
      extractLoop respond now (m :: ms) cd called =
        extractLoop respond now ms cd (called ++ [m])) ∧
    (∀ respond now m ms cd called, inCooldown cd now m = false →
      respond m = ModelResponse.parseError →
      extractLoop respond now (m :: ms) cd called =
        extractLoop respond now ms cd (called ++ [m])) ∧
    (∀ respond now m ms cd called props, inCooldown cd now m = false →
      respond m = ModelResponse.success props →
      3 ≤ meaningfulCount (_convert_era_in_properties
        (setKey "_extracted_by_model" (PyVal.str m) props)) →
      extractLoop respond now (m :: ms) cd called =
        ⟨ExtractOutcome.ok (_convert_era_in_properties
            (setKey "_extracted_by_model" (PyVal.str m) props)),
          cd, called ++ [m]⟩) ∧
    extract_properties ["modelA", "modelB", "modelC"] respondFailover [] 1000 =
      ⟨ExtractOutcome.ok (payloadRich ++ [("_extracted_by_model", PyVal.str "modelC")]),
        [("modelA", 1000)], ["modelA", "modelB", "modelC"]⟩ ∧
    findVal "_extracted_by_model"
      (payloadRich ++ [("_extracted_by_model", PyVal.str "modelC")]) =
        some (PyVal.str "modelC") ∧
    findVal "modelA"
      (extract_properties ["modelA", "modelB", "modelC"] respondFailover [] 1000).cooldown =
        some 1000 := by
  refine ⟨?_, ?_, ?_, ?_, ?_, by decide, by decide, by decide⟩
  · intro respond now m ms cd called h
    simp [extractLoop, h]
  · intro respond now m ms cd called h h2
    simp [extractLoop, h, h2]
  · intro respond now m ms cd called code h h2
    simp [extractLoop, h, h2]
  · intro respond now m ms cd called h h2
    simp [extractLoop, h, h2]
  · intro respond now m ms cd called props h h2 h3
    simp [extractLoop, h, h2, Nat.not_lt.mpr h3]

/-- C6 (witness): each loop-step equation at concrete inputs — a cooled-down
candidate skipped, a 429 recorded, an HTTP 500 advanced past, a parse error
advanced past, and a qualifying success returned. -/
theorem C6_witness :
    (extractLoop respondFailover 1000 ["modelB", "modelC"] [("modelB", 950)] [] =
      extractLoop respondFailover 1000 ["modelC"] [("modelB", 950)] []) ∧
    (extractLoop respondFailover 1000 ["modelA"] [] [] =
      extractLoop respondFailover 1000 [] (setKey "modelA" 1000 []) ["modelA"]) ∧
    (extractLoop respondHttp 1000 ["modelA"] [] [] =
      extractLoop respondHttp 1000 [] [] ["modelA"]) ∧
    (extractLoop respondParseError 1000 ["modelA"] [] [] =
      extractLoop respondParseError 1000 [] [] ["modelA"]) ∧
    (extractLoop respondFailover 1000 ["modelC"] [] [] =
      ⟨ExtractOutcome.ok (_convert_era_in_properties
          (setKey "_extracted_by_model" (PyVal.str "modelC") payloadRich)),
        [], ["modelC"]⟩) :=
  ⟨C6_theorem.1 respondFailover 1000 "modelB" ["modelC"] [("modelB", 950)] []
      (by decide),
    C6_theorem.2.1 respondFailover 1000 "modelA" [] [] [] (by decide) (by decide),
    C6_theorem.2.2.1 respondHttp 1000 "modelA" [] [] [] 500 (by decide) (by decide),
    C6_theorem.2.2.2.1 respondParseError 1000 "modelA" [] [] [] (by decide) (by decide),
    C6_theorem.2.2.2.2.1 respondFailover 1000 "modelC" [] [] [] payloadRich
      (by decide) (by decide) (by decide)⟩

/-- C7: an OCR call returning empty or whitespace-only text sets `ocr_status`
back to `pending`, leaves `retry_count` unchanged, and issues no LLM call in
that run. -/
theorem C7_theorem (env : Env) (s : Doc) (t : String)
    (hs : s.ocr_status = "pending" ∨ s.ocr_status = "processing")
    (hr : env.ocrResult = .ok t) (ht : pyStrip t = "") :
    (process_document env s).doc.ocr_status = "pending" ∧
    (process_document env s).doc.retry_count = s.retry_count ∧
    (process_document env s).llmCalls = 0 ∧
    (process_document env s).ocrCalls = 1 := by
  rcases hs with hs | hs <;>
    by_cases hlp : s.llm_status = "processing" <;>
      simp [process_document, ocrStage, llmStage, update_ocr_status,
        update_llm_status, hs, hlp, hr, ht]

/-- C7 (witness): a fresh pending document whose OCR call returns whitespace. -/
theorem C7_witness :
    (process_document envEmptyOcr docFresh).doc.ocr_status = "pending" ∧
    (process_document envEmptyOcr docFresh).doc.retry_count = docFresh.retry_count ∧
    (process_document envEmptyOcr docFresh).llmCalls = 0 ∧
    (process_document envEmptyOcr docFresh).ocrCalls = 1 :=
  C7_theorem envEmptyOcr docFresh "  " (Or.inl rfl) rfl (by decide)

/-- C8: era normalization — the converter computes `base_year + N - 1` from
`ERA_PATTERNS`, whose 明治 base year is 1867, contradicting the code's own
`ERA_START_YEARS` table (明治 = 1868): for `build_year` "明治45年" the code
produces "1911" although the claimed start year demands 1868 + 45 - 1 = 1912.
The other four eras agree with their `ERA_START_YEARS` entries. -/
theorem C8_theorem :
    convert_japanese_era_to_western "明治45年" = "1911" ∧
    findVal "明治" ERA_START_YEARS = some 1868 ∧
    convert_japanese_era_to_western "明治45年" ≠ toString (1868 + 45 - 1) ∧
    _convert_era_in_properties [("build_year", PyVal.str "明治45年")] =
      [("build_year", PyVal.str "1911")] ∧
    convert_japanese_era_to_western "大正10年" = toString (1912 + 10 - 1) ∧
    convert_japanese_era_to_western "昭和60年" = toString (1926 + 60 - 1) ∧
    convert_japanese_era_to_western "平成3年" = toString (1989 + 3 - 1) ∧
    convert_japanese_era_to_western "令和5年" = toString (2019 + 5 - 1) := by
  refine ⟨rfl, rfl, by decide, rfl, rfl, rfl, rfl, rfl⟩

/-- C9: idempotence on completed documents — a run on a `done`/`done` document
performs no store write and no external call and leaves the row unchanged,
and so does any repetition. -/
theorem C9_theorem (env : Env) (s : Doc) (h1 : s.ocr_status = "done")
    (h2 : s.llm_status = "done") :
    (process_document env s).doc = s ∧
    (process_document env s).writes = [] ∧
    (process_document env s).ocrCalls = 0 ∧
    (process_document env s).llmCalls = 0 ∧
    (process_document env (process_document env s).doc).doc = s := by
  simp [process_document, ocrStage, llmStage, h1, h2]

/-- C9 (witness): a concrete completed document. -/
theorem C9_witness :
    (process_document envAllFail docDoneDone).doc = docDoneDone ∧
    (process_document envAllFail docDoneDone).writes = [] ∧
    (process_document envAllFail docDoneDone).ocrCalls = 0 ∧
    (process_document envAllFail docDoneDone).llmCalls = 0 ∧
    (process_document envAllFail (process_document envAllFail docDoneDone).doc).doc =
      docDoneDone :=
  C9_theorem envAllFail docDoneDone rfl rfl

/-- C10: with an empty candidate list, `extract_properties` fails immediately
with its no-models error: no request is issued and the cooldown map is
returned unchanged. -/
theorem C10_theorem (respond : String → ModelResponse) (cd : List (String × Nat))
    (now : Nat) :
    extract_properties [] respond cd now = ⟨.errNoModels, cd, []⟩ := rfl

/-- C10 (witness): the fail-fast behaviour at a concrete oracle and state. -/
theorem C10_witness :
    extract_properties [] respondParseError [] 0 =
      ⟨ExtractOutcome.errNoModels, [], []⟩ :=
  C10_theorem respondParseError [] 0

end HousingOCR
